import Mathlib

/-
Verification development for the bixi_stats dashboard (src/app.py).

The embedding models, from the source:
  - CSV loading (pd.read_csv modelled as delimiter splitting on lines),
    including the two-attempt delimiter heuristic of charger_donnees
    (lines 131-133);
  - station records with attached point geometry (lines 136-137);
  - trip-file discovery, concatenation and the statistics computed by
    charger_donnees (lines 140-169), with the try/except boundary that
    converts every internal exception into a None result (lines 172-174);
  - the Folium map built by creer_carte (lines 176-240);
  - the year-selection default of main (lines 251-262).

Machine-level details that the claims do not touch (pandas dtype inference,
value_counts ordering before the bar chart re-sorts it, CSS, widget layout)
are out of scope; every modelled step is translated from the code.
-/

namespace BixiStats

/-! ### Characters and string splitting -/

def commaChar : Char := Char.ofNat 44

def semicolonChar : Char := Char.ofNat 59

def newlineChar : Char := Char.ofNat 10

def dotChar : Char := Char.ofNat 46

def colonChar : Char := Char.ofNat 58

def spaceChar : Char := Char.ofNat 32

/-- Splits a character list on a separator character; the accumulator holds
the current field reversed. -/
def splitCharsOn (sep : Char) : List Char → List Char → List (List Char)
  | [], acc => [acc.reverse]
  | c :: cs, acc =>
    if c = sep then acc.reverse :: splitCharsOn sep cs []
    else splitCharsOn sep cs (c :: acc)

def splitStrOn (sep : Char) (s : String) : List String :=
  (splitCharsOn sep s.data []).map (fun cs => String.mk cs)

def strStartsWith (s pre : String) : Bool :=
  pre.data.isPrefixOf s.data

def strEndsWith (s suf : String) : Bool :=
  suf.data.reverse.isPrefixOf s.data.reverse

/-! ### Numeric and timestamp parsing (models pandas cell conversion) -/

def digitVal (c : Char) : Option Nat :=
  if '0' ≤ c ∧ c ≤ '9' then some (c.toNat - '0'.toNat) else none

def parseNatAux : List Char → Nat → Option Nat
  | [], acc => some acc
  | c :: cs, acc =>
    match digitVal c with
    | some d => parseNatAux cs (acc * 10 + d)
    | none => none

def parseNatChars (cs : List Char) : Option Nat :=
  if cs.isEmpty then none else parseNatAux cs 0

def parseNatStr (s : String) : Option Nat := parseNatChars s.data

def parseIntStr (s : String) : Option Int :=
  match s.data with
  | [] => none
  | c :: rest =>
    if c = '-' then (parseNatChars rest).map (fun n => -(n : Int))
    else (parseNatChars s.data).map (fun n => (n : Int))

/-- Parses a decimal literal (optional sign, integer part, optional fraction)
into an exact rational; models the float conversion pandas applies to the
latitude/longitude columns. -/
def parseRatStr (s : String) : Option ℚ :=
  let p : Bool × List Char :=
    match s.data with
    | c :: rest => if c = '-' then (true, rest) else (false, s.data)
    | [] => (false, [])
  match splitCharsOn dotChar p.2 [] with
  | [ip] => (parseNatChars ip).map (fun n => if p.1 then -(n : ℚ) else (n : ℚ))
  | [ip, fp] =>
    match parseNatChars ip, parseNatChars fp with
    | some i, some f =>
      let q : ℚ := (i : ℚ) + (f : ℚ) / (10 : ℚ) ^ fp.length
      some (if p.1 then -q else q)
    | _, _ => none
  | _ => none

/-- Timestamp as far as the dashboard uses it: pd.to_datetime parses the
start/end date cells and only the date text and the clock fields matter;
the sole consumer is the .dt.hour accessor. -/
structure Timestamp where
  date : String
  hour : Nat
  minute : Nat
deriving DecidableEq

def parseTimeParts : List String → Option (Nat × Nat)
  | [hh, mm] => do
    let h ← parseNatStr hh
    let m ← parseNatStr mm
    if h < 24 ∧ m < 60 then pure (h, m) else none
  | [hh, mm, _ss] => do
    let h ← parseNatStr hh
    let m ← parseNatStr mm
    if h < 24 ∧ m < 60 then pure (h, m) else none
  | _ => none

def parseTimestamp (s : String) : Option Timestamp :=
  match splitStrOn spaceChar s with
  | [d, t] =>
    (parseTimeParts (splitStrOn colonChar t)).map (fun hm => ⟨d, hm.1, hm.2⟩)
  | _ => none

/-! ### Tables and CSV reading -/

/-- A parsed delimited file: header row plus data rows, as pandas exposes a
dataframe through df.columns and row access. -/
structure Table where
  header : List String
  rows : List (List String)
deriving DecidableEq

/-- Models pd.read_csv with an explicit separator: the first non-blank line
is the header, the remaining non-blank lines are data rows (pandas skips
blank lines by default). -/
def read_csv (sep : Char) (content : String) : Table :=
  match (splitStrOn newlineChar content).filter (fun l => l != "") with
  | [] => ⟨[], []⟩
  | h :: rest => ⟨splitStrOn sep h, rest.map (splitStrOn sep)⟩

/-- Two-attempt station parse, from app.py lines 131-133: naive
comma-delimited parse; if it yields a single column whose header still
contains a semicolon, re-parse with the semicolon as separator. -/
def read_stations (content : String) : Table :=
  if (read_csv commaChar content).header.length = 1
      ∧ ((read_csv commaChar content).header.headD "").data.contains semicolonChar = true then
    read_csv semicolonChar content
  else
    read_csv commaChar content

/-! ### Errors and the year directory -/

/-- The Python exception kinds the load path can raise; the blanket except
in charger_donnees catches every one of them. -/
inductive PyError where
  | fileNotFound (path : String)
  | keyError (key : String)
  | valueError (msg : String)
deriving DecidableEq

/-- One year subdirectory: the files it contains, as (name, content). -/
structure YearDir where
  files : List (String × String)
deriving DecidableEq

def readFile (yd : YearDir) (fname : String) : Except PyError String :=
  match yd.files.lookup fname with
  | some content => Except.ok content
  | none => Except.error (PyError.fileNotFound fname)

/-- Trip-file discovery, from app.py lines 140-141: every file whose name
ends in .csv and does not start with Stations. -/
def fichiers_trajets (yd : YearDir) : List String :=
  (yd.files.map Prod.fst).filter
    (fun f => strEndsWith f ".csv" && !(strStartsWith f "Stations"))

/-- pd.concat(df_list): raises ValueError on an empty list, otherwise stacks
the rows (the trip files share one schema, so the first header stands). -/
def concatTables : List Table → Except PyError Table
  | [] => Except.error (PyError.valueError "No objects to concatenate")
  | t :: ts => Except.ok ⟨t.header, t.rows ++ (ts.map Table.rows).flatten⟩

/-! ### Stations and geometry -/

structure Station where
  name : String
  latitude : ℚ
  longitude : ℚ
deriving DecidableEq

/-- Shapely point: Point(longitude, latitude), so x is the longitude and y
the latitude. -/
structure Point where
  x : ℚ
  y : ℚ
deriving DecidableEq

structure GdfStation where
  station : Station
  geometry : Point
deriving DecidableEq

def pointOf (s : Station) : Point := ⟨s.longitude, s.latitude⟩

/-- From app.py lines 136-137: zip(longitude, latitude) into Point(xy). -/
def attachGeometry (stations : List Station) : List GdfStation :=
  stations.map (fun s => ⟨s, pointOf s⟩)

def colIndexAux (col : String) : List String → Option Nat
  | [] => none
  | c :: cs => if c = col then some 0 else (colIndexAux col cs).map (· + 1)

/-- Cell access df[col] on one row: KeyError when the column is absent. -/
def getCell (hdr row : List String) (col : String) : Except PyError String :=
  match colIndexAux col hdr with
  | some i => Except.ok (row.getD i "")
  | none => Except.error (PyError.keyError col)

def optionToExcept {α : Type} (e : PyError) : Option α → Except PyError α
  | some a => Except.ok a
  | none => Except.error e

def extractStation (hdr row : List String) : Except PyError Station := do
  let nameCell ← getCell hdr row "name"
  let latCell ← getCell hdr row "latitude"
  let lonCell ← getCell hdr row "longitude"
  let lat ← optionToExcept
    (PyError.valueError ("could not convert string to float: " ++ latCell))
    (parseRatStr latCell)
  let lon ← optionToExcept
    (PyError.valueError ("could not convert string to float: " ++ lonCell))
    (parseRatStr lonCell)
  pure ⟨nameCell, lat, lon⟩

def extractStations (tbl : Table) : Except PyError (List Station) :=
  tbl.rows.mapM (fun row => extractStation tbl.header row)

/-! ### Trips -/

/-- One trip row after loading: the columns charger_donnees touches, with
start_date/end_date already through pd.to_datetime (lines 150-151). The
station codes stay as the raw cell text; only equality on them is used. -/
structure Trip where
  start_date : Timestamp
  end_date : Timestamp
  duration_sec : Int
  start_station_code : String
  end_station_code : String
  is_member : Int
deriving DecidableEq

def extractTrip (hdr row : List String) : Except PyError Trip := do
  let sdCell ← getCell hdr row "start_date"
  let edCell ← getCell hdr row "end_date"
  let duCell ← getCell hdr row "duration_sec"
  let scCell ← getCell hdr row "start_station_code"
  let ecCell ← getCell hdr row "end_station_code"
  let imCell ← getCell hdr row "is_member"
  let sd ← optionToExcept
    (PyError.valueError ("could not parse datetime " ++ sdCell)) (parseTimestamp sdCell)
  let ed ← optionToExcept
    (PyError.valueError ("could not parse datetime " ++ edCell)) (parseTimestamp edCell)
  let du ← optionToExcept
    (PyError.valueError ("invalid literal " ++ duCell)) (parseIntStr duCell)
  let im ← optionToExcept
    (PyError.valueError ("invalid literal " ++ imCell)) (parseIntStr imCell)
  pure ⟨sd, ed, du, scCell, ecCell, im⟩

def extractTrips (tbl : Table) : Except PyError (List Trip) :=
  tbl.rows.mapM (fun row => extractTrip tbl.header row)

/-! ### The statistics of charger_donnees (app.py lines 155-169) -/

/-- duree_moyenne: df.duration_sec.mean() / 60. -/
def duree_moyenne (trips : List Trip) : ℚ :=
  (((trips.map (fun t => t.duration_sec)).sum : Int) : ℚ) / (trips.length : ℚ) / 60

/-- trajets_boucle: the rows with start_station_code == end_station_code. -/
def trajets_boucle (trips : List Trip) : List Trip :=
  trips.filter (fun t => t.start_station_code == t.end_station_code)

/-- proportion_boucle: len(trajets_boucle) / len(df) * 100. -/
def proportion_boucle (trips : List Trip) : ℚ :=
  ((trajets_boucle trips).length : ℚ) / (trips.length : ℚ) * 100

/-- membres: len(df[df.is_member == 1]). -/
def membres (trips : List Trip) : Nat :=
  (trips.filter (fun t => t.is_member == 1)).length

/-- occasionnels: len(df[df.is_member == 0]). -/
def occasionnels (trips : List Trip) : Nat :=
  (trips.filter (fun t => t.is_member == 0)).length

/-- Models pd.cut(hour, bins=[0, 6, 12, 18, 24], labels, include_lowest=True)
with the pandas default right=True: the intervals are [0, 6], (6, 12],
(12, 18] and (18, 24]; a value beyond 24 falls outside every bin (NaN,
modelled as none). -/
def period (hour : Nat) : Option String :=
  if hour ≤ 6 then some "0h-6h"
  else if hour ≤ 12 then some "6h-12h"
  else if hour ≤ 18 then some "12h-18h"
  else if hour ≤ 24 then some "18h-24h"
  else none

def period_labels : List String := ["0h-6h", "6h-12h", "12h-18h", "18h-24h"]

/-- Count of the rows whose period label is the given one (one entry of
value_counts on the period column). -/
def compte_periode (label : String) (trips : List Trip) : Nat :=
  (trips.filter (fun t => period t.start_date.hour == some label)).length

/-- repartition_periodes: value_counts / len(df) * 100, one value per bucket
label. The descending value_counts ordering is not tracked: the dashboard
re-sorts the series before charting (line 319), so only the label-to-value
association is observable. -/
def repartition_periodes (trips : List Trip) : List (String × ℚ) :=
  period_labels.map
    (fun l => (l, (compte_periode l trips : ℚ) / (trips.length : ℚ) * 100))

/-! ### charger_donnees (app.py lines 112-174) -/

/-- The result dictionary of charger_donnees. -/
structure Resultats where
  stations : List GdfStation
  duree_moyenne : ℚ
  proportion_boucle : ℚ
  membres : Nat
  occasionnels : Nat
  repartition_periodes : List (String × ℚ)
deriving DecidableEq

/-- Station-loading steps of charger_donnees (lines 129-137): read
Stations_<annee>.csv, two-attempt parse, extract the columns and attach
the point geometry. -/
def charger_stations (annee : String) (yd : YearDir) : Except PyError (List GdfStation) := do
  let content ← readFile yd ("Stations_" ++ annee ++ ".csv")
  let stations ← extractStations (read_stations content)
  pure (attachGeometry stations)

/-- Body of the try block of charger_donnees (lines 128-171). -/
def charger_donnees_inner (annee : String) (yd : YearDir) : Except PyError Resultats := do
  let gdf_stations ← charger_stations annee yd
  let df_list ← (fichiers_trajets yd).mapM (fun f => do
    let c ← readFile yd f
    pure (read_csv commaChar c))
  let df_annee ← concatTables df_list
  let trips ← extractTrips df_annee
  pure ⟨gdf_stations, duree_moyenne trips, proportion_boucle trips,
    membres trips, occasionnels trips, repartition_periodes trips⟩

/-- charger_donnees with its blanket try/except (lines 172-174): every
internal exception becomes a user-visible notification and a None result,
with no error distinction surviving. -/
def charger_donnees (annee : String) (yd : YearDir) : Option Resultats :=
  match charger_donnees_inner annee yd with
  | Except.ok r => some r
  | Except.error _ => none

/-! ### creer_carte (app.py lines 176-240) -/

def bixi_red : String := "#BC1E45"

structure TileLayer where
  tiles : String
  attr : String
  name : String
  control : Bool
deriving DecidableEq

structure CircleMarker where
  location : ℚ × ℚ
  radius : Nat
  popup : String
  color : String
  fill : Bool
  fill_color : String
  fill_opacity : ℚ
  weight : Nat
deriving DecidableEq

structure MarkerClusterLayer where
  name : String
  overlay : Bool
  control : Bool
  markers : List CircleMarker
deriving DecidableEq

structure LayerControlWidget where
  position : String
deriving DecidableEq

structure FoliumMap where
  location : ℚ × ℚ
  zoom_start : Nat
  tile_layers : List TileLayer
  clusters : List MarkerClusterLayer
  layer_controls : List LayerControlWidget
deriving DecidableEq

/-- One CircleMarker of creer_carte (lines 224-233): located at
(geometry.y, geometry.x), popup showing the station name in bold. -/
def station_marker (s : GdfStation) : CircleMarker :=
  ⟨(s.geometry.y, s.geometry.x), 10, "<b>" ++ s.station.name ++ "</b>",
    bixi_red, true, bixi_red, 7 / 10, 2⟩

/-- creer_carte: map centered on (45.5236, -73.5985) at zoom 12, four
selectable tile layers, one MarkerCluster holding one marker per station,
and a layer control at the top right. -/
def creer_carte (gdf_stations : List GdfStation) : FoliumMap :=
  ⟨(45.5236, -73.5985), 12,
    [⟨"https://mt1.google.com/vt/lyrs=s&x={x}&y={y}&z={z}", "© Google Maps", "Satellite", true⟩,
     ⟨"https://mt1.google.com/vt/lyrs=p&x={x}&y={y}&z={z}", "© Google Maps", "Terrain", true⟩,
     ⟨"cartodbdark_matter", "© OpenStreetMap contributors", "Sombre", true⟩,
     ⟨"cartodbpositron", "© OpenStreetMap contributors", "OpenStreetMap", true⟩],
    [⟨"Stations BIXI", true, true, gdf_stations.map station_marker⟩],
    [⟨"topright"⟩]⟩

/-! ### Year selection of main (app.py lines 251-262) -/

/-- Python list.index: position of the first occurrence, ValueError when the
element is absent. -/
def pyListIndex (x : String) : List String → Except PyError Nat
  | [] => Except.error (PyError.valueError (x ++ " is not in list"))
  | y :: ys =>
    if y = x then Except.ok 0
    else
      match pyListIndex x ys with
      | Except.ok i => Except.ok (i + 1)
      | Except.error e => Except.error e

/-- annees_disponibles.sort(). -/
def annees_triees (annees : List String) : List String :=
  annees.mergeSort (fun a b => decide (a ≤ b))

/-- The default entry handed to st.selectbox (lines 258-262): the sorted
year list indexed at annees_disponibles.index(2014). -/
def selection_par_defaut (annees : List String) : Except PyError String := do
  let tri := annees_triees annees
  let i ← pyListIndex "2014" tri
  pure (tri.getD i "")

/-! ### Helper lemmas -/

theorem length_filter_cons {α : Type} (p : α → Bool) (a : α) (l : List α) :
    ((a :: l).filter p).length = (p a).toNat + (l.filter p).length := by
  cases h : p a <;> simp [List.filter_cons, h, Nat.add_comm]

/-- Every hour below 24 satisfies exactly one of the four period tests. -/
theorem period_one_of_four : ∀ h : Nat, h < 24 →
    (period h == some "0h-6h").toNat + (period h == some "6h-12h").toNat
      + (period h == some "12h-18h").toNat + (period h == some "18h-24h").toNat = 1 := by
  decide

/-- The four period counts add up to the trip count when every start hour is
below 24. -/
theorem compte_periode_sum (trips : List Trip)
    (hh : ∀ t ∈ trips, t.start_date.hour < 24) :
    compte_periode "0h-6h" trips + compte_periode "6h-12h" trips
      + compte_periode "12h-18h" trips + compte_periode "18h-24h" trips
      = trips.length := by
  induction trips with
  | nil => rfl
  | cons t ts ih =>
    have ht := period_one_of_four t.start_date.hour (hh t (List.mem_cons_self t ts))
    have hih := ih (fun u hu => hh u (List.mem_cons_of_mem _ hu))
    simp only [compte_periode, length_filter_cons, List.length_cons] at *
    omega

/-- A percentage count / total * 100 is within [0, 100]. -/
theorem pct_bounds (c n : Nat) (hc : c ≤ n) (hn : 0 < n) :
    0 ≤ (c : ℚ) / (n : ℚ) * 100 ∧ (c : ℚ) / (n : ℚ) * 100 ≤ 100 := by
  have hn' : (0 : ℚ) < (n : ℚ) := by exact_mod_cast hn
  have hc' : (c : ℚ) ≤ (n : ℚ) := by exact_mod_cast hc
  constructor
  · positivity
  · rw [div_mul_eq_mul_div, div_le_iff₀ hn']
    nlinarith

theorem pyListIndex_of_mem (x : String) (l : List String) (hx : x ∈ l) :
    ∃ i, pyListIndex x l = Except.ok i ∧ l.getD i "" = x := by
  induction l with
  | nil => cases hx
  | cons y ys ih =>
    by_cases h : y = x
    · exact ⟨0, by simp [pyListIndex, h], by simp [h]⟩
    · rcases List.mem_cons.mp hx with h1 | h1
      · exact absurd h1.symm h
      · obtain ⟨i, hi1, hi2⟩ := ih h1
        refine ⟨i + 1, ?_, by simpa using hi2⟩
        simp [pyListIndex, h, hi1]

theorem pyListIndex_of_not_mem (x : String) (l : List String) (hx : x ∉ l) :
    pyListIndex x l = Except.error (PyError.valueError (x ++ " is not in list")) := by
  induction l with
  | nil => rfl
  | cons y ys ih =>
    have h1 : ¬ y = x := fun e => hx (by simp [e])
    have h2 : x ∉ ys := fun m => hx (List.mem_cons_of_mem _ m)
    simp [pyListIndex, h1, ih h2]

/-! ### Concrete inputs used by witnesses and counterexamples -/

/-- A year directory holding a well-formed station file and no trip file. -/
def yd_sans_trajets : YearDir :=
  ⟨[("Stations_2014.csv", "name,latitude,longitude\nStation A,45.5,-73.6")]⟩

/-- A year directory with no station file at all. -/
def yd_sans_stations : YearDir := ⟨[]⟩

/-- Semicolon-delimited station content, used to trigger the two-attempt
parse. -/
def contenu_semicolon : String := "name;latitude;longitude\nStation A;45.5;-73.6"

def ts_exemple : Timestamp := ⟨"2014-06-01", 8, 0⟩

/-- The two trips of the worked example in the spec: 600 s member loop on A,
1200 s casual trip from A to B. -/
def trips_exemple : List Trip :=
  [⟨ts_exemple, ts_exemple, 600, "A", "A", 1⟩,
   ⟨ts_exemple, ts_exemple, 1200, "A", "B", 0⟩]

/-- A one-trip collection with start hour 10, used as a witness input. -/
def trips_temoin : List Trip := [⟨ts_exemple, ts_exemple, 600, "A", "B", 1⟩]

/-! ### C1: hour-of-day bucket assignment -/

/-- Claim C1 (counterexample): the claim places a trip with start hour
exactly 6 in the bucket whose lower bound it is, 6h-12h; the code, whose
pd.cut call keeps the pandas default right=True, assigns hour 6 to 0h-6h. -/
theorem c1_counterexample :
    period 6 = some "0h-6h" ∧ period 6 ≠ some "6h-12h" := by
  exact ⟨rfl, by decide⟩

/-- Claim C1 (amended): for every start hour in [0, 23] the bucket
assignment yields exactly one of the four labels, with right-closed buckets
[0,6], (6,12], (12,18], (18,24]: hour 0 lands in 0h-6h, hour 23 in 18h-24h,
and hours 6, 12, 18 land in the bucket whose upper bound they are. -/
theorem c1_buckets : ∀ h : Nat, h < 24 →
    (period h).isSome = true
      ∧ (period h = some "0h-6h" ↔ h ≤ 6)
      ∧ (period h = some "6h-12h" ↔ 6 < h ∧ h ≤ 12)
      ∧ (period h = some "12h-18h" ↔ 12 < h ∧ h ≤ 18)
      ∧ (period h = some "18h-24h" ↔ 18 < h) := by
  decide

/-- Witness for c1_buckets at hour 23. -/
theorem c1_buckets_witness :
    (period 23).isSome = true
      ∧ (period 23 = some "0h-6h" ↔ 23 ≤ 6)
      ∧ (period 23 = some "6h-12h" ↔ 6 < 23 ∧ 23 ≤ 12)
      ∧ (period 23 = some "12h-18h" ↔ 12 < 23 ∧ 23 ≤ 18)
      ∧ (period 23 = some "18h-24h" ↔ 18 < 23) :=
  c1_buckets 23 (by decide)

/-! ### C2: a year with stations but no trip files -/

/-- Claim C2 (counterexample): on a year directory holding a parseable
station file and no trip file, the failure raised inside charger_donnees is
the generic ValueError of the empty pd.concat, and the observable outcome,
None, is identical to the outcome on an unrelated failure (a directory with
no station file): no distinct NoTripDataError exists anywhere in the code. -/
theorem c2_counterexample :
    charger_donnees_inner "2014" yd_sans_trajets
        = Except.error (PyError.valueError "No objects to concatenate")
      ∧ charger_donnees "2014" yd_sans_trajets = none
      ∧ charger_donnees "2014" yd_sans_stations = none :=
  ⟨rfl, rfl, rfl⟩

/-- Claim C2 (amended): for every year directory whose station file loads
and parses but whose trip-file set is empty, charger_donnees fails — the
empty concatenation raises ValueError, the blanket except turns it into a
None result — so no successful result with empty statistics is produced,
but the error is not a distinct NoTripDataError. -/
theorem c2_no_trip_files (annee : String) (yd : YearDir)
    (hs : ∃ g, charger_stations annee yd = Except.ok g)
    (ht : fichiers_trajets yd = []) :
    charger_donnees_inner annee yd
        = Except.error (PyError.valueError "No objects to concatenate")
      ∧ charger_donnees annee yd = none := by
  obtain ⟨g, hg⟩ := hs
  have h1 : charger_donnees_inner annee yd
      = Except.error (PyError.valueError "No objects to concatenate") := by
    unfold charger_donnees_inner
    rw [hg, ht]
    rfl
  refine ⟨h1, ?_⟩
  unfold charger_donnees
  rw [h1]

/-- Witness for c2_no_trip_files on the concrete station-only directory. -/
theorem c2_no_trip_files_witness :
    ((∃ g, charger_stations "2014" yd_sans_trajets = Except.ok g)
        ∧ fichiers_trajets yd_sans_trajets = [])
      ∧ (charger_donnees_inner "2014" yd_sans_trajets
            = Except.error (PyError.valueError "No objects to concatenate")
          ∧ charger_donnees "2014" yd_sans_trajets = none) :=
  ⟨⟨⟨_, rfl⟩, rfl⟩, c2_no_trip_files "2014" yd_sans_trajets ⟨_, rfl⟩ rfl⟩

/-! ### C3: the default year of the selection interface -/

/-- Claim C3 (counterexample): on a discovered year set that does not hold
the preferred year 2014, the default-selection lookup fails with ValueError
instead of picking a fallback year. -/
theorem c3_counterexample :
    selection_par_defaut ["2015"]
      = Except.error (PyError.valueError "2014 is not in list") := by
  have h : annees_triees ["2015"] = ["2015"] := by
    simp [annees_triees]
  simp [selection_par_defaut, h,
    pyListIndex_of_not_mem "2014" ["2015"] (by decide)]

/-- Claim C3 (amended): the default year is the fixed preferred year 2014
whenever it is present among the discovered year directories; when it is
absent, the index lookup raises ValueError and the selection fails — there
is no fallback year. -/
theorem c3_selection (annees : List String) :
    ("2014" ∈ annees → selection_par_defaut annees = Except.ok "2014")
      ∧ ("2014" ∉ annees →
          selection_par_defaut annees
            = Except.error (PyError.valueError "2014 is not in list")) := by
  constructor
  · intro hm
    have hmem : "2014" ∈ annees_triees annees :=
      ((List.mergeSort_perm annees _).mem_iff).mpr hm
    obtain ⟨i, h1, h2⟩ := pyListIndex_of_mem _ _ hmem
    simpa [selection_par_defaut, h1] using h2
  · intro hm
    have hmem : "2014" ∉ annees_triees annees :=
      fun m => hm (((List.mergeSort_perm annees _).mem_iff).mp m)
    simp [selection_par_defaut, pyListIndex_of_not_mem _ _ hmem]

/-- Witness for c3_selection: present on one concrete year set, absent on
another. -/
theorem c3_selection_witness :
    selection_par_defaut ["2015", "2014", "2013"] = Except.ok "2014"
      ∧ selection_par_defaut ["2015"]
          = Except.error (PyError.valueError "2014 is not in list") :=
  ⟨(c3_selection ["2015", "2014", "2013"]).1 (by decide),
   (c3_selection ["2015"]).2 (by decide)⟩

/-! ### C4: the two-attempt delimiter parse -/

/-- Claim C4: whenever the naive comma parse of a station file yields a
single column whose header still contains the semicolon, the two-attempt
parse returns exactly the direct semicolon-delimited parse of the same
content — same column count, same cell values. -/
theorem c4_two_attempt (content : String)
    (h1 : (read_csv commaChar content).header.length = 1)
    (h2 : ((read_csv commaChar content).header.headD "").data.contains semicolonChar
        = true) :
    read_stations content = read_csv semicolonChar content
      ∧ (read_stations content).header.length
          = (read_csv semicolonChar content).header.length
      ∧ (read_stations content).rows = (read_csv semicolonChar content).rows := by
  have h : read_stations content = read_csv semicolonChar content := by
    unfold read_stations
    rw [if_pos ⟨h1, h2⟩]
  exact ⟨h, by rw [h], by rw [h]⟩

/-- Witness for c4_two_attempt on a concrete semicolon-delimited file. -/
theorem c4_two_attempt_witness :
    read_stations contenu_semicolon = read_csv semicolonChar contenu_semicolon
      ∧ (read_stations contenu_semicolon).header.length
          = (read_csv semicolonChar contenu_semicolon).header.length
      ∧ (read_stations contenu_semicolon).rows
          = (read_csv semicolonChar contenu_semicolon).rows :=
  c4_two_attempt contenu_semicolon (by decide) (by decide)

/-! ### C5: the period distribution -/

/-- Claim C5: for every non-empty trip collection (hours in [0, 23], as
pd.to_datetime guarantees), the period distribution carries one value per
bucket equal to 100 x count / total, each value lies in [0, 100], and the
four values sum to 100 within the 0.01 tolerance (exactly, in fact — no
normalization step exists). -/
theorem c5_repartition (trips : List Trip) (h0 : trips ≠ [])
    (hh : ∀ t ∈ trips, t.start_date.hour < 24) :
    repartition_periodes trips
        = period_labels.map
            (fun l => (l, 100 * (compte_periode l trips : ℚ) / (trips.length : ℚ)))
      ∧ (∀ p ∈ repartition_periodes trips, 0 ≤ p.2 ∧ p.2 ≤ 100)
      ∧ |((repartition_periodes trips).map Prod.snd).sum - 100| ≤ 1 / 100 := by
  have hlen : 0 < trips.length := List.length_pos.mpr h0
  have hlen' : (0 : ℚ) < (trips.length : ℚ) := by exact_mod_cast hlen
  have hne : (trips.length : ℚ) ≠ 0 := ne_of_gt hlen'
  have hsum := compte_periode_sum trips hh
  have hb : ∀ l, 0 ≤ (compte_periode l trips : ℚ) / (trips.length : ℚ) * 100
      ∧ (compte_periode l trips : ℚ) / (trips.length : ℚ) * 100 ≤ 100 :=
    fun l => pct_bounds _ _ (List.length_filter_le _ _) hlen
  refine ⟨?_, ?_, ?_⟩
  · simp only [repartition_periodes, period_labels, List.map_cons, List.map_nil,
      Prod.mk.injEq, List.cons.injEq, and_true, true_and]
    refine ⟨by ring, by ring, by ring, by ring⟩
  · intro p hp
    simp only [repartition_periodes, period_labels, List.map_cons, List.map_nil,
      List.mem_cons, List.not_mem_nil, or_false] at hp
    rcases hp with rfl | rfl | rfl | rfl <;> exact hb _
  · have e1 : ((repartition_periodes trips).map Prod.snd).sum = 100 := by
      simp only [repartition_periodes, period_labels, List.map_cons, List.map_nil,
        List.sum_cons, List.sum_nil, add_zero]
      have hq : (compte_periode "0h-6h" trips : ℚ) + (compte_periode "6h-12h" trips : ℚ)
          + (compte_periode "12h-18h" trips : ℚ) + (compte_periode "18h-24h" trips : ℚ)
          = (trips.length : ℚ) := by exact_mod_cast hsum
      field_simp
      linarith [hq]
    rw [e1]
    norm_num

/-- Witness for c5_repartition on the one-trip collection with start hour
8: the 6h-12h bucket takes 100 percent. -/
theorem c5_repartition_witness :
    (repartition_periodes trips_temoin
        = period_labels.map
            (fun l => (l, 100 * (compte_periode l trips_temoin : ℚ)
                / (trips_temoin.length : ℚ)))
      ∧ (∀ p ∈ repartition_periodes trips_temoin, 0 ≤ p.2 ∧ p.2 ≤ 100)
      ∧ |((repartition_periodes trips_temoin).map Prod.snd).sum - 100| ≤ 1 / 100) :=
  c5_repartition trips_temoin (by decide) (by decide)

/-! ### C6: the loop proportion -/

/-- Claim C6: for every non-empty trip collection the loop proportion is
100 x count(start_station_code == end_station_code) / total, lies in
[0, 100], and is 0 when no trip starts and ends at the same station. -/
theorem c6_boucle (trips : List Trip) (h0 : trips ≠ []) :
    proportion_boucle trips
        = 100 * ((trips.filter
            (fun t => t.start_station_code == t.end_station_code)).length : ℚ)
            / (trips.length : ℚ)
      ∧ 0 ≤ proportion_boucle trips ∧ proportion_boucle trips ≤ 100
      ∧ ((∀ t ∈ trips, t.start_station_code ≠ t.end_station_code)
          → proportion_boucle trips = 0) := by
  have hlen : 0 < trips.length := List.length_pos.mpr h0
  have hb := pct_bounds (trajets_boucle trips).length trips.length
    (List.length_filter_le _ _) hlen
  refine ⟨by unfold proportion_boucle trajets_boucle; ring, hb.1, hb.2, ?_⟩
  intro hne
  have hfil : trajets_boucle trips = [] := by
    unfold trajets_boucle
    rw [List.filter_eq_nil_iff]
    intro a ha
    simpa using hne a ha
  rw [proportion_boucle, hfil]
  simp

/-- Witness for c6_boucle on the one-trip collection from A to B. -/
theorem c6_boucle_witness :
    (proportion_boucle trips_temoin
        = 100 * ((trips_temoin.filter
            (fun t => t.start_station_code == t.end_station_code)).length : ℚ)
            / (trips_temoin.length : ℚ)
      ∧ 0 ≤ proportion_boucle trips_temoin ∧ proportion_boucle trips_temoin ≤ 100
      ∧ ((∀ t ∈ trips_temoin, t.start_station_code ≠ t.end_station_code)
          → proportion_boucle trips_temoin = 0)) :=
  c6_boucle trips_temoin (by decide)

/-! ### C7: member and casual counts -/

/-- A membership flag cannot be 1 and 0 at once, so the two indicator counts
add into the count of the boolean-like rows. -/
theorem flag_split (a : Int) :
    ((a == 1) || (a == 0)).toNat = (a == 1).toNat + (a == 0).toNat := by
  by_cases h1 : a = 1
  · subst h1
    decide
  · by_cases h0 : a = 0
    · subst h0
      decide
    · simp [beq_eq_false_iff_ne.mpr h1, beq_eq_false_iff_ne.mpr h0]

theorem membres_occasionnels_filter (trips : List Trip) :
    membres trips + occasionnels trips
      = (trips.filter (fun t => t.is_member == 1 || t.is_member == 0)).length := by
  induction trips with
  | nil => rfl
  | cons t ts ih =>
    simp only [membres, occasionnels, length_filter_cons] at *
    rw [flag_split]
    omega

/-- Claim C7: for every non-empty trip collection, rows whose membership
flag is neither 1 nor 0 are counted in neither bucket (no error is raised:
the counts are total functions), so member count + casual count is at most
the trip count, with equality exactly when every flag is 0 or 1. -/
theorem c7_membres (trips : List Trip) (_h0 : 0 < trips.length) :
    membres trips + occasionnels trips
        = (trips.filter (fun t => t.is_member == 1 || t.is_member == 0)).length
      ∧ membres trips + occasionnels trips ≤ trips.length
      ∧ (membres trips + occasionnels trips = trips.length
          ↔ ∀ t ∈ trips, t.is_member = 1 ∨ t.is_member = 0) := by
  have hf := membres_occasionnels_filter trips
  refine ⟨hf, ?_, ?_⟩
  · rw [hf]
    exact List.length_filter_le _ _
  · rw [hf]
    constructor
    · intro hlen t ht
      have heq : trips.filter (fun t => t.is_member == 1 || t.is_member == 0) = trips :=
        (List.filter_sublist trips).eq_of_length hlen
      have hface := List.filter_eq_self.mp heq t ht
      simpa using hface
    · intro hall
      have heq : trips.filter (fun t => t.is_member == 1 || t.is_member == 0) = trips := by
        apply List.filter_eq_self.mpr
        intro a ha
        simpa using hall a ha
      rw [heq]

/-- Witness for c7_membres on a collection holding one member flag 1 and
one flag 0. -/
theorem c7_membres_witness :
    membres trips_exemple + occasionnels trips_exemple
        = (trips_exemple.filter
            (fun t => t.is_member == 1 || t.is_member == 0)).length
      ∧ membres trips_exemple + occasionnels trips_exemple ≤ trips_exemple.length
      ∧ (membres trips_exemple + occasionnels trips_exemple = trips_exemple.length
          ↔ ∀ t ∈ trips_exemple, t.is_member = 1 ∨ t.is_member = 0) :=
  c7_membres trips_exemple (by decide)

/-! ### C8: average duration and the worked example -/

/-- Claim C8: the average duration is mean(duration_sec) / 60 for every
non-empty trip collection, and on the two-trip worked example (600 s member
loop on A, 1200 s casual A to B) the computed statistics are 15.0 minutes,
50.0 percent loops, 1 member trip and 1 casual trip. -/
theorem c8_exemple (trips : List Trip) (_h0 : trips ≠ []) :
    duree_moyenne trips
        = (((trips.map (fun t => t.duration_sec)).sum : Int) : ℚ)
            / (trips.length : ℚ) / 60
      ∧ duree_moyenne trips_exemple = 15
      ∧ proportion_boucle trips_exemple = 50
      ∧ membres trips_exemple = 1
      ∧ occasionnels trips_exemple = 1 := by
  refine ⟨rfl, ?_, ?_, by decide, by decide⟩
  · simp only [duree_moyenne, trips_exemple, List.map_cons, List.map_nil,
      List.sum_cons, List.sum_nil, List.length_cons, List.length_nil]
    norm_num
  · have hfil : trajets_boucle trips_exemple
        = [⟨ts_exemple, ts_exemple, 600, "A", "A", 1⟩] := by decide
    rw [proportion_boucle, hfil]
    norm_num [trips_exemple]

/-- Witness for c8_exemple, instantiated on the one-trip collection. -/
theorem c8_exemple_witness :
    duree_moyenne trips_temoin
        = (((trips_temoin.map (fun t => t.duration_sec)).sum : Int) : ℚ)
            / (trips_temoin.length : ℚ) / 60
      ∧ duree_moyenne trips_exemple = 15
      ∧ proportion_boucle trips_exemple = 50
      ∧ membres trips_exemple = 1
      ∧ occasionnels trips_exemple = 1 :=
  c8_exemple trips_temoin (by decide)

/-! ### C9: the map document -/

/-- Claim C9: for every station collection, the empty one included,
creer_carte succeeds and produces a map centered exactly on
(45.5236, -73.5985) at fixed zoom 12, with the four selectable basemap
layers (satellite, terrain, dark, street map), and one marker per station
under a single cluster layer, each labelled with the station name. -/
theorem c9_carte (gdf : List GdfStation) :
    (creer_carte gdf).location = (45.5236, -73.5985)
      ∧ (creer_carte gdf).zoom_start = 12
      ∧ (creer_carte gdf).tile_layers.map TileLayer.name
          = ["Satellite", "Terrain", "Sombre", "OpenStreetMap"]
      ∧ (creer_carte gdf).tile_layers.map TileLayer.control = [true, true, true, true]
      ∧ (creer_carte gdf).clusters = [⟨"Stations BIXI", true, true, gdf.map station_marker⟩]
      ∧ (creer_carte gdf).clusters.map (fun c => c.markers.length) = [gdf.length]
      ∧ (creer_carte gdf).clusters.map (fun c => c.markers.map CircleMarker.popup)
          = [gdf.map (fun s => "<b>" ++ s.station.name ++ "</b>")]
      ∧ (creer_carte []).clusters = [⟨"Stations BIXI", true, true, []⟩] := by
  refine ⟨rfl, rfl, rfl, rfl, rfl, by simp [creer_carte], ?_, rfl⟩
  simp [creer_carte, station_marker]

/-! ### C10: marker locations round-trip the station coordinates -/

/-- Claim C10: the geometry attached in the aggregation step,
Point(longitude, latitude), round-trips through marker placement
(location = [geometry.y, geometry.x]) back to each station's
(latitude, longitude) pair, in that order, for every station of the
collection. -/
theorem c10_round_trip (stations : List Station) :
    (creer_carte (attachGeometry stations)).clusters.map
        (fun c => c.markers.map CircleMarker.location)
      = [stations.map (fun s => (s.latitude, s.longitude))] := by
  simp [creer_carte, attachGeometry, station_marker, pointOf, List.map_map]

end BixiStats
